import Mathlib

/-!
Verification of the bittensor-pylon core subsystems against their
natural-language specification: the authenticated-request engine
(`pylon/_internal/client/api/abstract.py`), the recency cache adapter and
data provider (`pylon/service/bittensor/cache/recent.py`), and the derived
refresh interval (`pylon/service/lifespans.py`).

The Python code is shallowly embedded: `async` methods become pure
functions with explicit state passing; the external collaborators
(the abstract `_login`, the communicator, the key-value store, the
upstream chain client) become explicit function/value parameters; raised
exceptions become `Except` results.  Python's unbounded `int` is `Int`
(or `Nat` where the source only ever holds non-negative values), and
float timestamps are `Rat` with Python's `int()` truncation modelled
explicitly.
-/

namespace Pylon

/-! ## Authenticated request engine (`AbstractAsyncApi`) -/

/-- The exception taxonomy relevant to the engine:
`PylonUnauthorized`, `PylonForbidden`, `PylonClosed`, plus a generic
constructor for any other exception (login failures, validation errors,
transport errors other than the three typed ones). -/
inductive PErr where
  | unauthorized
  | forbidden
  | closed
  | other (code : Nat)
  deriving DecidableEq, Repr

/-- Mutable state of an `AbstractAsyncApi` instance: the stored login
response (context) and the login generation counter
(`self._login_response`, `self._login_generation`).  The generation is
`Int` because the sentinel default argument of `_authenticated_request`
is `-1`. -/
structure ApiState (L : Type) where
  login_response : Option L
  login_generation : Int
  deriving DecidableEq, Repr

/-- `AbstractAsyncApi.__init__`: no login response yet, generation 0. -/
def ApiState.init (L : Type) : ApiState L := ⟨none, 0⟩

/-- Result of one `_authenticated_request` call: either the raised
exception or the built request with the generation in effect, together
with the state after the call and a flag recording whether `_login()`
was invoked during the call. -/
structure AuthCall (R L : Type) where
  result : Except PErr (R × Int)
  state : ApiState L
  loginInvoked : Bool
  deriving Repr

instance {L : Type} (o : Option L) : Decidable (o = none) :=
  match o with
  | none => isTrue rfl
  | some _ => isFalse (by simp)

/-- `AbstractAsyncApi._authenticated_request` (abstract.py lines 50-63).
`login` is the outcome the abstract `_login()` would produce if called
during this invocation; `request_factory` reads the current login
response (the Python factory is a closure over `self`).  Under the lock:
if `self._login_response is None or stale_generation ==
self._login_generation`, perform the login; on success store the
response and increment the generation (a login failure propagates with
no state mutation, since in the source the assignment happens only after
`await self._login()` returns).  Then build and return the request with
the current generation. -/
def authenticated_request {R L : Type} (st : ApiState L) (login : Except PErr L)
    (request_factory : Option L → R) (stale_generation : Int) : AuthCall R L :=
  if st.login_response = none ∨ stale_generation = st.login_generation then
    match login with
    | .error e => ⟨.error e, st, true⟩
    | .ok l =>
        let st' : ApiState L := ⟨some l, st.login_generation + 1⟩
        ⟨.ok (request_factory st'.login_response, st'.login_generation), st', true⟩
  else
    ⟨.ok (request_factory st.login_response, st.login_generation), st, false⟩

/-- The default value of the `stale_generation` parameter:
`LoginGeneration(-1)`. -/
def staleGenerationDefault : Int := -1

/-- `AbstractAsyncApi._send_request` (abstract.py lines 39-48): raise
`PylonClosed` when the communicator is not open, otherwise delegate to
the communicator, whose behaviour on this attempt is `comm`. -/
def send_request {R Resp : Type} (is_open : Bool) (comm : R → Except PErr Resp)
    (request : R) : Except PErr Resp :=
  if ¬ is_open then .error .closed else comm request

/-- Result of one `_send_authenticated_request` call: the response or
raised exception, the final engine state, the number of `_login()`
invocations and the number of `_send_request` attempts made. -/
structure SendAuthCall (L Resp : Type) where
  result : Except PErr Resp
  state : ApiState L
  loginInvocations : Nat
  sendAttempts : Nat
  deriving Repr

/-- `AbstractAsyncApi._send_authenticated_request` (abstract.py lines
65-80).  `login₁`/`login₂` are the outcomes `_login()` would produce on
its first/second invocation within this call; `open₁ comm₁` /
`open₂ comm₂` the communicator's state and behaviour on the first/second
send attempt.  Build the request via `_authenticated_request` (default
stale generation), send it; on `PylonUnauthorized` or `PylonForbidden`
rebuild with `stale_generation` set to the generation just used and send
exactly once more; any other exception propagates. -/
def send_authenticated_request {R L Resp : Type} (st : ApiState L)
    (login₁ login₂ : Except PErr L) (request_factory : Option L → R)
    (open₁ : Bool) (comm₁ : R → Except PErr Resp)
    (open₂ : Bool) (comm₂ : R → Except PErr Resp) : SendAuthCall L Resp :=
  match authenticated_request st login₁ request_factory staleGenerationDefault with
  | ⟨.error e, st₁, b₁⟩ => ⟨.error e, st₁, if b₁ then 1 else 0, 0⟩
  | ⟨.ok (request, login_generation), st₁, b₁⟩ =>
    match send_request open₁ comm₁ request with
    | .ok resp => ⟨.ok resp, st₁, if b₁ then 1 else 0, 1⟩
    | .error e =>
      if e = .unauthorized ∨ e = .forbidden then
        match authenticated_request st₁ login₂ request_factory login_generation with
        | ⟨.error e₂, st₂, b₂⟩ =>
            ⟨.error e₂, st₂, (if b₁ then 1 else 0) + (if b₂ then 1 else 0), 1⟩
        | ⟨.ok (request₂, _), st₂, b₂⟩ =>
            ⟨send_request open₂ comm₂ request₂, st₂,
              (if b₁ then 1 else 0) + (if b₂ then 1 else 0), 2⟩
      else ⟨.error e, st₁, if b₁ then 1 else 0, 1⟩

/-! ## Recency cache (`recent.py`) -/

/-- Python strings are modelled as lists of characters. -/
abbrev PyStr := List Char

/-- JSON values, the image of pydantic's `model_dump_json` /
`model_validate_json` pair.  Serialization is modelled at the JSON-tree
level: pydantic's rendering of a tree to text and parsing back is the
external library's concern, the adapter manipulates the tree. -/
inductive Jval where
  | str (s : PyStr)
  | int (n : Int)
  | arr (elems : List Jval)
  | obj (fields : List (PyStr × Jval))
  deriving Repr

/-- The litestar key-value store: a mapping from keys to stored values
(`Store.get` / `Store.set`).  Its persistence mechanics are external;
single-key reads and writes are atomic. -/
def Store : Type := PyStr → Option Jval

/-- An empty store. -/
def Store.empty : Store := fun _ => none

/-- `store.set(key, value)`. -/
def Store.set (s : Store) (key : PyStr) (value : Jval) : Store :=
  fun k => if k = key then some value else s k

/-- `store.get(key)`. -/
def Store.get (s : Store) (key : PyStr) : Option Jval := s key

/-- Fuel-driven decimal rendering, most significant digit first; the
fuel argument only makes the recursion structural, `natDecimal` always
supplies enough. -/
def natDecimalCore : Nat → Nat → PyStr
  | 0, _ => []
  | fuel + 1, n =>
      if n < 10 then [Nat.digitChar n]
      else natDecimalCore fuel (n / 10) ++ [Nat.digitChar (n % 10)]

/-- Decimal rendering of a natural number: the model of Python's
`f"{netuid}"`. -/
def natDecimal (n : Nat) : PyStr := natDecimalCore (n + 1) n

/-- Numeric value of a decimal digit character. -/
def digitVal (c : Char) : Nat := c.toNat - 48

/-- Numeric value of a decimal digit string, used to show that decimal
rendering is injective. -/
def decimalVal (s : PyStr) : Nat := s.foldl (fun a c => 10 * a + digitVal c) 0

/-- `RecentCacheAdapter` (recent.py lines 29-52): works at a single
payload-type level.  `model_name` is `self.model.__name__`; `encT`/`decT`
are pydantic's serialization and validation for the bound model type `T`
(external collaborators, passed explicitly in this embedding). -/
structure RecentCacheAdapter (T : Type) where
  model_name : PyStr
  encT : T → Jval
  decT : Jval → Option T

/-- `_RecentCacheEntry` (recent.py lines 19-26): a cached payload with
the corresponding block's timestamp. -/
structure RecentCacheEntry (T : Type) where
  entry : T
  timestamp : Int
  deriving Repr

/-- `RecentCacheAdapter._build_cache_key` (recent.py lines 51-52):
`f"recent_{self.model.__name__}_{netuid}"`. -/
def RecentCacheAdapter.build_cache_key {T : Type} (A : RecentCacheAdapter T)
    (netuid : Nat) : PyStr :=
  "recent_".toList ++ A.model_name ++ '_' :: natDecimal netuid

/-- pydantic `model_dump_json` of a `_RecentCacheEntry`: a JSON object
with the two fields `entry` and `timestamp`. -/
def encEntry {T : Type} (A : RecentCacheAdapter T) (e : RecentCacheEntry T) : Jval :=
  .obj [("entry".toList, A.encT e.entry), ("timestamp".toList, .int e.timestamp)]

/-- pydantic `model_validate_json` of a `_RecentCacheEntry`: accept
exactly the shape produced by `encEntry`, validating the payload with the
bound model type. -/
def decEntry {T : Type} (A : RecentCacheAdapter T) (j : Jval) :
    Option (RecentCacheEntry T) :=
  match j with
  | .obj [(f₁, je), (f₂, .int t)] =>
      if f₁ = "entry".toList ∧ f₂ = "timestamp".toList then
        (A.decT je).map (fun x => ⟨x, t⟩)
      else none
  | _ => none

/-- `RecentCacheAdapter.save` (recent.py lines 54-65): serialize the
entry and write it under the built key (no store-level expiry). -/
def RecentCacheAdapter.save {T : Type} (A : RecentCacheAdapter T) (store : Store)
    (netuid : Nat) (timestamp : Int) (object_ : T) : Store :=
  store.set (A.build_cache_key netuid) (encEntry A ⟨object_, timestamp⟩)

/-- Result of `RecentCacheAdapter.get`: `absent` models `return None`,
`invalid` a pydantic validation failure raised during
`model_validate_json` (a defect that propagates, per the spec), `found`
a deserialized entry. -/
inductive GetResult (T : Type) where
  | absent
  | invalid
  | found (e : RecentCacheEntry T)
  deriving Repr

/-- `RecentCacheAdapter.get` (recent.py lines 67-80): read the raw value
under the built key; `None` becomes `absent`, otherwise deserialize with
the bound model type. -/
def RecentCacheAdapter.get {T : Type} (A : RecentCacheAdapter T) (store : Store)
    (netuid : Nat) : GetResult T :=
  match store.get (A.build_cache_key netuid) with
  | none => .absent
  | some data =>
      match decEntry A data with
      | none => .invalid
      | some e => .found e

/-- Modelled from the spec: `BLOCK_PROCESSING_TIME` lives in
`pylon/_internal/common/constants.py`, which is not under src/.  The
spec fixes the block-to-wall-clock conversion factor at 12 seconds per
block (scenario `block_time=12s`; the refresh-interval rationale equates
10 blocks with 120 seconds). -/
def BLOCK_PROCESSING_TIME : Nat := 12

/-- Python `int()` applied to a float, modelled on exact rationals:
truncation toward zero (numerator `tdiv` denominator). -/
def pyTrunc (q : Rat) : Int := q.num.tdiv q.den

/-- The age-in-blocks computation of `RecentDataProvider._get`
(recent.py line 132): `int(max(0, int(now - cached_at)) /
BLOCK_PROCESSING_TIME)`.  The outer `int()` of a quotient of a
non-negative integer by a positive integer is floor division, hence the
result lives in `Nat`; `now` is a float (`datetime.now().timestamp()`),
modelled as an exact rational. -/
def elapsed_blocks (now : Rat) (cached_at : Int) : Nat :=
  (max 0 (pyTrunc (now - (cached_at : Rat)))).toNat / BLOCK_PROCESSING_TIME

/-- The spec's formula for the age in blocks, stated as the spec writes
it (for comparison against `elapsed_blocks`, which is translated from
the source): `floor(max(0, now - entry.timestamp) / block_time)`. -/
def elapsed_blocks_spec (now : Rat) (cached_at : Int) : Nat :=
  ⌊max 0 (now - (cached_at : Rat)) / (BLOCK_PROCESSING_TIME : Rat)⌋₊

/-- The exceptions `RecentDataProvider._get` can raise: `RecentDataMissing`,
`RecentDataStale`, or a pydantic validation error surfaced from the
adapter. -/
inductive ProviderErr where
  | missing
  | stale
  | validation
  deriving DecidableEq, Repr

/-- `RecentDataProvider._get` (recent.py lines 112-146): raise
`RecentDataMissing` when the adapter finds nothing, `RecentDataStale`
when the age in blocks strictly exceeds the hard limit, otherwise return
the payload; the returned flag records whether the soft-limit warning
was logged (`logger.warning`, the non-fatal staleness signal). -/
def RecentDataProvider_get {T : Type} (soft_limit hard_limit : Int) (store : Store)
    (cache_adapter : RecentCacheAdapter T) (netuid : Nat) (now : Rat) :
    Except ProviderErr (T × Bool) :=
  match cache_adapter.get store netuid with
  | .absent => .error .missing
  | .invalid => .error .validation
  | .found cache_entry =>
      let elapsed : Int := elapsed_blocks now cache_entry.timestamp
      if elapsed > hard_limit then .error .stale
      else .ok (cache_entry.entry, decide (elapsed > soft_limit))

/-! ## Refresh interval (`lifespans.py`) -/

/-- `_recent_objects_update_task_interval` (lifespans.py lines 27-34):
`max_limit = min(hard_limit // 2, soft_limit)`;
`min_limit = max(max_limit - 10, 1)`; interval in seconds is
`min_limit * BLOCK_PROCESSING_TIME`.  Python's `//` on `int` is floor
division (`Int.fdiv`); the settings values are Python ints. -/
def recent_objects_update_task_interval (soft_limit hard_limit : Int) : Int :=
  let max_limit := min (Int.fdiv hard_limit 2) soft_limit
  let min_limit := max (max_limit - 10) 1
  min_limit * (BLOCK_PROCESSING_TIME : Int)

/-- The spec's formula for the refresh interval, stated as the spec
writes it (for comparison against
`recent_objects_update_task_interval`, which is translated from the
source): `max(min(hard_limit // 2, soft_limit) - 10, 1) * block_time`,
over the non-negative block counts of the configuration. -/
def recent_objects_update_task_interval_spec (soft_limit hard_limit : Nat) : Nat :=
  max (min (hard_limit / 2) soft_limit - 10) 1 * BLOCK_PROCESSING_TIME

/-! ## Scheduled refresh task -/

/-- An upstream fetch failure (`UpstreamFetchError`). -/
inductive FetchErr where
  | err (code : Nat)
  deriving DecidableEq, Repr

/-- The upstream chain client's behaviour for one partition during one
tick: `getLatestBlock`, `getBlockTimestamp`, and the model-specific
payload fetcher. -/
structure UpstreamFetch (T Block : Type) where
  get_latest_block : Except FetchErr Block
  get_block_timestamp : Block → Except FetchErr Int
  get_object : Block → Except FetchErr T

/-- Modelled from the spec: `UpdateRecentObject.execute`
(`pylon/service/tasks.py` is not under src/; only its tests are).  Per
partition: fetch the latest upstream block, its timestamp, and the
payload; on any failure log and record no cache write (the function
returns normally — no exception escapes the task); only when all three
succeed call `Cache Adapter.save` exactly once with the fetched
timestamp and payload.  The returned list records the `save` calls
performed, as (netuid, timestamp, payload) triples. -/
def UpdateRecentObject_execute {T Block : Type} (fetch : UpstreamFetch T Block)
    (A : RecentCacheAdapter T) (store : Store) (netuid : Nat) :
    Store × List (Nat × Int × T) :=
  match fetch.get_latest_block with
  | .error _ => (store, [])
  | .ok block =>
      match fetch.get_block_timestamp block with
      | .error _ => (store, [])
      | .ok timestamp =>
          match fetch.get_object block with
          | .error _ => (store, [])
          | .ok object_ => (A.save store netuid timestamp object_, [(netuid, timestamp, object_)])

/-- Modelled from the spec: one refresh tick over the tracked
partitions, each refreshed independently with its own upstream
behaviour; a failed partition leaves the store untouched and the tick
proceeds to the next partition. -/
def refresh_tick {T Block : Type} (netuids : List Nat)
    (fetch : Nat → UpstreamFetch T Block) (A : RecentCacheAdapter T)
    (store : Store) : Store × List (Nat × Int × T) :=
  match netuids with
  | [] => (store, [])
  | netuid :: rest =>
      let r := UpdateRecentObject_execute (fetch netuid) A store netuid
      let t := refresh_tick rest fetch A r.1
      (t.1, r.2 ++ t.2)

/-- A nested payload model, mirroring the tests' `AnObjectModel`
(`field_1: str`, `field_2: int`). -/
structure InnerModel where
  field_1 : PyStr
  field_2 : Int
  deriving DecidableEq, Repr

/-- A payload model with a nested sub-model, used to exercise
structural fidelity of the cache round-trip on nested payloads. -/
structure NestedModel where
  inner : InnerModel
  tag : Int
  deriving DecidableEq, Repr

/-- pydantic serialization of `InnerModel`. -/
def encInner (x : InnerModel) : Jval :=
  .obj [("field_1".toList, .str x.field_1), ("field_2".toList, .int x.field_2)]

/-- pydantic validation of `InnerModel`. -/
def decInner : Jval → Option InnerModel
  | .obj [(f₁, .str s), (f₂, .int n)] =>
      if f₁ = "field_1".toList ∧ f₂ = "field_2".toList then some ⟨s, n⟩ else none
  | _ => none

/-- pydantic serialization of `NestedModel`. -/
def encNested (x : NestedModel) : Jval :=
  .obj [("inner".toList, encInner x.inner), ("tag".toList, .int x.tag)]

/-- pydantic validation of `NestedModel`. -/
def decNested : Jval → Option NestedModel
  | .obj [(f₁, ji), (f₂, .int n)] =>
      if f₁ = "inner".toList ∧ f₂ = "tag".toList then
        (decInner ji).map (fun i => ⟨i, n⟩)
      else none
  | _ => none

/-- A cache adapter bound to the nested payload model. -/
def exampleAdapter : RecentCacheAdapter NestedModel :=
  ⟨"NestedModel".toList, encNested, decNested⟩

/-- A concrete nested payload value. -/
def exampleNested : NestedModel := ⟨⟨"test".toList, 123⟩, 7⟩

/-- States an engine instance can be in: the initial state of
`__init__`, and anything `_authenticated_request` can produce from a
reachable state (for any login outcome, factory and stale generation). -/
inductive ReachableApiState (L : Type) : ApiState L → Prop where
  | init : ReachableApiState L (ApiState.init L)
  | step {R : Type} (st : ApiState L) (login : Except PErr L)
      (request_factory : Option L → R) (stale_generation : Int) :
      ReachableApiState L st →
      ReachableApiState L (authenticated_request st login request_factory stale_generation).state

/-! ## General lemmas about the engine -/

lemma auth_request_pos {R L : Type} {st : ApiState L} (l : L)
    (request_factory : Option L → R) {stale_generation : Int}
    (h : st.login_response = none ∨ stale_generation = st.login_generation) :
    authenticated_request st (.ok l) request_factory stale_generation =
      ⟨.ok (request_factory (some l), st.login_generation + 1),
        ⟨some l, st.login_generation + 1⟩, true⟩ := by
  unfold authenticated_request
  rw [if_pos h]

lemma auth_request_neg {R L : Type} {st : ApiState L} (login : Except PErr L)
    (request_factory : Option L → R) {stale_generation : Int}
    (h : ¬(st.login_response = none ∨ stale_generation = st.login_generation)) :
    authenticated_request st login request_factory stale_generation =
      ⟨.ok (request_factory st.login_response, st.login_generation), st, false⟩ := by
  unfold authenticated_request
  rw [if_neg h]

lemma auth_request_err_state {R L : Type} {st : ApiState L} (e : PErr)
    (request_factory : Option L → R) (stale_generation : Int) :
    (authenticated_request st (.error e) request_factory stale_generation).state = st := by
  unfold authenticated_request
  split_ifs <;> rfl

lemma auth_request_err_pos {R L : Type} {st : ApiState L} (e : PErr)
    (request_factory : Option L → R) {stale_generation : Int}
    (h : st.login_response = none ∨ stale_generation = st.login_generation) :
    authenticated_request st (.error e) request_factory stale_generation =
      ⟨.error e, st, true⟩ := by
  unfold authenticated_request
  rw [if_pos h]

lemma auth_request_ok_generation {R L : Type} {st st' : ApiState L}
    {login : Except PErr L} {request_factory : Option L → R}
    {stale_generation gen : Int} {r : R} {b : Bool}
    (h : authenticated_request st login request_factory stale_generation =
      ⟨.ok (r, gen), st', b⟩) :
    gen = st'.login_generation := by
  unfold authenticated_request at h
  split_ifs at h
  · cases login with
    | error e => simp at h
    | ok l =>
        simp only [AuthCall.mk.injEq, Except.ok.injEq, Prod.mk.injEq] at h
        obtain ⟨⟨-, hg⟩, hst, -⟩ := h
        rw [← hg, ← hst]
  · simp only [AuthCall.mk.injEq, Except.ok.injEq, Prod.mk.injEq] at h
    obtain ⟨⟨-, hg⟩, hst, -⟩ := h
    rw [← hg, ← hst]

lemma auth_request_gen_step {R L : Type} (st : ApiState L) (login : Except PErr L)
    (request_factory : Option L → R) (stale_generation : Int) :
    (authenticated_request st login request_factory stale_generation).state.login_generation
        = st.login_generation
    ∨ (authenticated_request st login request_factory stale_generation).state.login_generation
        = st.login_generation + 1 := by
  unfold authenticated_request
  split_ifs
  · cases login <;> simp
  · simp

lemma reachable_login_generation_nonneg {L : Type} (st : ApiState L)
    (h : ReachableApiState L st) : 0 ≤ st.login_generation := by
  induction h with
  | init => simp [ApiState.init]
  | step st' login request_factory stale_generation _ ih =>
      rcases auth_request_gen_step st' login request_factory stale_generation with h' | h' <;>
        omega

/-! ## General lemmas about the freshness arithmetic -/

lemma pyTrunc_of_nonneg {q : Rat} (h : 0 ≤ q) : pyTrunc q = ⌊q⌋ := by
  unfold pyTrunc
  rw [Int.tdiv_eq_ediv (Rat.num_nonneg.mpr h) (Int.ofNat_nonneg q.den)]
  exact Rat.floor_def.symm

lemma pyTrunc_nonpos {q : Rat} (h : q ≤ 0) : pyTrunc q ≤ 0 := by
  unfold pyTrunc
  have hnum : q.num ≤ 0 := Rat.num_nonpos.mpr h
  have : (-q.num).tdiv q.den = -(q.num.tdiv q.den) := Int.neg_tdiv q.num q.den
  have hpos : 0 ≤ (-q.num).tdiv q.den :=
    Int.tdiv_nonneg (by omega) (Int.ofNat_nonneg q.den)
  omega

lemma elapsed_blocks_eq_spec (now : Rat) (cached_at : Int) :
    elapsed_blocks now cached_at = elapsed_blocks_spec now cached_at := by
  unfold elapsed_blocks elapsed_blocks_spec
  rcases le_or_lt 0 (now - (cached_at : Rat)) with h | h
  · rw [pyTrunc_of_nonneg h, max_eq_right (Int.floor_nonneg.mpr h), max_eq_right h,
      Nat.floor_div_nat, Int.floor_toNat]
  · have h1 : pyTrunc (now - (cached_at : Rat)) ≤ 0 := pyTrunc_nonpos h.le
    rw [max_eq_left h1, max_eq_left h.le]
    simp

lemma provider_get_found {T : Type} {store : Store} {A : RecentCacheAdapter T}
    {netuid : Nat} {ce : RecentCacheEntry T}
    (h : A.get store netuid = .found ce) (soft_limit hard_limit : Int) (now : Rat) :
    RecentDataProvider_get soft_limit hard_limit store A netuid now =
      if (elapsed_blocks now ce.timestamp : Int) > hard_limit then .error .stale
      else .ok (ce.entry, decide ((elapsed_blocks now ce.timestamp : Int) > soft_limit)) := by
  unfold RecentDataProvider_get
  rw [h]

/-! ## General lemmas about cache keys -/

lemma digitChar_ne_underscore {k : Nat} (h : k < 10) : Nat.digitChar k ≠ '_' := by
  interval_cases k <;> decide

lemma natDecimalCore_mem {fuel n : Nat} {c : Char} (h : c ∈ natDecimalCore fuel n) :
    ∃ k, k < 10 ∧ c = Nat.digitChar k := by
  induction fuel generalizing n with
  | zero => simp [natDecimalCore] at h
  | succ f ih =>
      by_cases hn : n < 10
      · simp [natDecimalCore, hn] at h
        exact ⟨n, hn, h⟩
      · simp [natDecimalCore, hn] at h
        rcases h with h | h
        · exact ih h
        · exact ⟨n % 10, Nat.mod_lt _ (by norm_num), h⟩

lemma underscore_not_mem_natDecimal (n : Nat) : '_' ∉ natDecimal n := by
  intro h
  obtain ⟨k, hk, he⟩ := natDecimalCore_mem h
  exact digitChar_ne_underscore hk he.symm

lemma natDecimal_ne_nil (n : Nat) : natDecimal n ≠ [] := by
  unfold natDecimal natDecimalCore
  by_cases hn : n < 10 <;> simp [hn]

lemma digitVal_digitChar {k : Nat} (h : k < 10) : digitVal (Nat.digitChar k) = k := by
  interval_cases k <;> rfl

lemma decimalVal_append (s : PyStr) (c : Char) :
    decimalVal (s ++ [c]) = 10 * decimalVal s + digitVal c := by
  simp [decimalVal, List.foldl_append]

lemma decimalVal_natDecimalCore {fuel n : Nat} (h : n < fuel) :
    decimalVal (natDecimalCore fuel n) = n := by
  induction fuel generalizing n with
  | zero => omega
  | succ f ih =>
      by_cases hn : n < 10
      · simp [natDecimalCore, hn, decimalVal, digitVal_digitChar hn]
      · have hdiv : n / 10 < n := Nat.div_lt_self (by omega) (by norm_num)
        have hf : n / 10 < f := by omega
        simp only [natDecimalCore, if_neg hn, decimalVal_append, ih hf,
          digitVal_digitChar (Nat.mod_lt n (by norm_num))]
        omega

lemma natDecimal_inj {m n : Nat} (h : natDecimal m = natDecimal n) : m = n := by
  have hm := decimalVal_natDecimalCore (Nat.lt_succ_self m)
  have hn := decimalVal_natDecimalCore (Nat.lt_succ_self n)
  unfold natDecimal at h
  rw [← hm, ← hn, h]

lemma sep_split {d₁ d₂ t₁ t₂ : PyStr} (h₁ : '_' ∉ d₁) (h₂ : '_' ∉ d₂)
    (h : d₁ ++ '_' :: t₁ = d₂ ++ '_' :: t₂) : d₁ = d₂ ∧ t₁ = t₂ := by
  induction d₁ generalizing d₂ with
  | nil =>
      cases d₂ with
      | nil => simpa using h
      | cons c d₂' =>
          simp only [List.nil_append, List.cons_append, List.cons.injEq] at h
          exact absurd (h.1 ▸ List.mem_cons_self c d₂') h₂
  | cons c d₁' ih =>
      cases d₂ with
      | nil =>
          simp only [List.cons_append, List.nil_append, List.cons.injEq] at h
          exact absurd (h.1 ▸ List.mem_cons_self c d₁') h₁
      | cons c' d₂' =>
          simp only [List.cons_append, List.cons.injEq] at h
          have h₁' : '_' ∉ d₁' := fun hc => h₁ (List.mem_cons_of_mem c hc)
          have h₂' : '_' ∉ d₂' := fun hc => h₂ (List.mem_cons_of_mem c' hc)
          obtain ⟨hd, ht⟩ := ih h₁' h₂' h.2
          exact ⟨by rw [h.1, hd], ht⟩

lemma build_key_components_inj {a b : PyStr} {m n : Nat}
    (h : "recent_".toList ++ a ++ '_' :: natDecimal m =
      "recent_".toList ++ b ++ '_' :: natDecimal n) :
    a = b ∧ m = n := by
  rw [List.append_assoc, List.append_assoc] at h
  have h' : a ++ '_' :: natDecimal m = b ++ '_' :: natDecimal n :=
    List.append_cancel_left h
  have hr := congrArg List.reverse h'
  simp only [List.reverse_append, List.reverse_cons, List.append_assoc,
    List.singleton_append] at hr
  obtain ⟨hd, ht⟩ := sep_split
    (fun hc => underscore_not_mem_natDecimal m (List.mem_reverse.mp hc))
    (fun hc => underscore_not_mem_natDecimal n (List.mem_reverse.mp hc)) hr
  refine ⟨List.reverse_injective ht, natDecimal_inj (List.reverse_injective hd)⟩

lemma decNested_encNested (x : NestedModel) : decNested (encNested x) = some x := by
  cases x with
  | mk i t => cases i with
    | mk s n => rfl

/-! ## Claim theorems -/

/-- C1: `_authenticated_request` performs a login — storing the returned
login context and incrementing the generation by exactly one — if and
only if no login context exists yet or `stale_generation` equals the
engine's current generation; in every other case the existing context is
reused unchanged; either way the call builds the request via
`request_factory` and returns it paired with the generation in effect
after the (possible) login. -/
theorem C1_authenticated_request_login_gating {R L : Type} (st : ApiState L) (l : L)
    (request_factory : Option L → R) (stale_generation : Int) :
    ((st.login_response = none ∨ stale_generation = st.login_generation) →
      authenticated_request st (.ok l) request_factory stale_generation =
        ⟨.ok (request_factory (some l), st.login_generation + 1),
          ⟨some l, st.login_generation + 1⟩, true⟩)
    ∧ (¬(st.login_response = none ∨ stale_generation = st.login_generation) →
      authenticated_request st (.ok l) request_factory stale_generation =
        ⟨.ok (request_factory st.login_response, st.login_generation), st, false⟩) :=
  ⟨fun h => auth_request_pos l request_factory h,
   fun h => auth_request_neg _ request_factory h⟩

theorem C1_authenticated_request_login_gating_witness :
    authenticated_request (ApiState.init Nat) (.ok 7) (fun o => o.getD 0) (-1) =
      ⟨.ok (7, 1), ⟨some 7, 1⟩, true⟩ :=
  (C1_authenticated_request_login_gating (ApiState.init Nat) 7 (fun o => o.getD 0) (-1)).1
    (Or.inl rfl)

/-- C6: if `_login()` raises inside `_authenticated_request`, neither the
stored login context nor the generation counter is modified — the engine
state after the call is exactly the state before it — and the login
failure propagates to the caller. -/
theorem C6_login_failure_atomic {R L : Type} (st : ApiState L) (e : PErr)
    (request_factory : Option L → R) (stale_generation : Int) :
    (authenticated_request st (.error e) request_factory stale_generation).state = st
    ∧ ((st.login_response = none ∨ stale_generation = st.login_generation) →
        authenticated_request st (.error e) request_factory stale_generation =
          ⟨.error e, st, true⟩) :=
  ⟨auth_request_err_state e request_factory stale_generation,
   fun h => auth_request_err_pos e request_factory h⟩

theorem C6_login_failure_atomic_witness :
    authenticated_request (ApiState.init Nat) (Except.error PErr.closed)
        (fun o : Option Nat => o.getD 0) (-1) =
      ⟨Except.error PErr.closed, ApiState.init Nat, true⟩ :=
  (C6_login_failure_atomic (ApiState.init Nat) PErr.closed (fun o => o.getD 0) (-1)).2
    (Or.inl rfl)

/-- C10: the login generation starts at 0 and each
`_authenticated_request` call leaves it unchanged or increments it by
exactly one, so on every reachable engine state it is non-negative and
never equals the default `stale_generation` sentinel `-1`; consequently
a call with the default sentinel performs a login if and only if no
login context exists yet. -/
theorem C10_generation_sentinel_invariant {L : Type} :
    (ApiState.init L).login_generation = 0
    ∧ (∀ {R : Type} (st : ApiState L) (login : Except PErr L)
        (request_factory : Option L → R) (stale_generation : Int),
        (authenticated_request st login request_factory stale_generation).state.login_generation
            = st.login_generation
        ∨ (authenticated_request st login request_factory stale_generation).state.login_generation
            = st.login_generation + 1)
    ∧ (∀ st : ApiState L, ReachableApiState L st →
        0 ≤ st.login_generation ∧ st.login_generation ≠ staleGenerationDefault)
    ∧ (∀ st : ApiState L, ReachableApiState L st →
        ∀ {R : Type} (l : L) (request_factory : Option L → R),
          ((authenticated_request st (.ok l) request_factory staleGenerationDefault).loginInvoked
              = true
            ↔ st.login_response = none)) := by
  refine ⟨rfl, fun st login f g => auth_request_gen_step st login f g,
    fun st h => ?_, fun st h => ?_⟩
  · have := reachable_login_generation_nonneg st h
    unfold staleGenerationDefault
    exact ⟨this, by omega⟩
  · intro R l f
    have hgen := reachable_login_generation_nonneg st h
    constructor
    · intro hinv
      by_contra hnone
      have hc : ¬(st.login_response = none ∨ staleGenerationDefault = st.login_generation) := by
        intro hc
        rcases hc with h' | h'
        · exact hnone h'
        · unfold staleGenerationDefault at h'
          omega
      rw [auth_request_neg _ f hc] at hinv
      simp at hinv
    · intro hnone
      rw [auth_request_pos l f (Or.inl hnone)]

theorem C10_generation_sentinel_invariant_witness :
    0 ≤ (authenticated_request (ApiState.init Nat) (.ok 5)
          (fun o : Option Nat => o.getD 0) (-1)).state.login_generation
    ∧ (authenticated_request (ApiState.init Nat) (.ok 5)
          (fun o : Option Nat => o.getD 0) (-1)).state.login_generation
        ≠ staleGenerationDefault :=
  (C10_generation_sentinel_invariant (L := Nat)).2.2.1 _
    (ReachableApiState.step _ _ _ _ ReachableApiState.init)

/-- C2: in `_send_authenticated_request`, the generation returned by the
first `_authenticated_request` equals the generation of the state it
left behind; if the first send fails with `Unauthorized` or `Forbidden`
the request is rebuilt via `_authenticated_request` with
`stale_generation` equal to that generation and sent exactly once more,
the second outcome (success or failure) propagating as is; any other
failure of the first send propagates immediately with no retry and no
further login; and when the first send fails auth-retryably and the
second login succeeds, exactly one additional `_login()` call and
exactly two sends occur. -/
theorem C2_send_authenticated_request_retry {R L Resp : Type}
    (st : ApiState L) (login₁ login₂ : Except PErr L) (request_factory : Option L → R)
    (open₁ : Bool) (comm₁ : R → Except PErr Resp)
    (open₂ : Bool) (comm₂ : R → Except PErr Resp)
    (request : R) (login_generation : Int) (st₁ : ApiState L) (b₁ : Bool)
    (h₁ : authenticated_request st login₁ request_factory staleGenerationDefault =
      ⟨.ok (request, login_generation), st₁, b₁⟩) :
    login_generation = st₁.login_generation
    ∧ (∀ e, send_request open₁ comm₁ request = .error e →
        e = .unauthorized ∨ e = .forbidden →
        send_authenticated_request st login₁ login₂ request_factory open₁ comm₁ open₂ comm₂ =
          (match authenticated_request st₁ login₂ request_factory login_generation with
           | ⟨.error e₂, st₂, b₂⟩ =>
               ⟨.error e₂, st₂, (if b₁ then 1 else 0) + (if b₂ then 1 else 0), 1⟩
           | ⟨.ok (request₂, _), st₂, b₂⟩ =>
               ⟨send_request open₂ comm₂ request₂, st₂,
                 (if b₁ then 1 else 0) + (if b₂ then 1 else 0), 2⟩))
    ∧ (∀ e, send_request open₁ comm₁ request = .error e →
        ¬(e = .unauthorized ∨ e = .forbidden) →
        send_authenticated_request st login₁ login₂ request_factory open₁ comm₁ open₂ comm₂ =
          ⟨.error e, st₁, if b₁ then 1 else 0, 1⟩)
    ∧ (∀ e l₂, send_request open₁ comm₁ request = .error e →
        e = .unauthorized ∨ e = .forbidden → login₂ = .ok l₂ →
        (send_authenticated_request st login₁ login₂ request_factory
            open₁ comm₁ open₂ comm₂).loginInvocations
            = (if b₁ then 1 else 0) + 1
        ∧ (send_authenticated_request st login₁ login₂ request_factory
            open₁ comm₁ open₂ comm₂).sendAttempts = 2) := by
  have hgen := auth_request_ok_generation h₁
  refine ⟨hgen, ?_, ?_, ?_⟩
  · intro e he hee
    simp only [send_authenticated_request, h₁, he, if_pos hee]
  · intro e he hee
    simp only [send_authenticated_request, h₁, he, if_neg hee]
  · intro e l₂ he hee hl₂
    have hcond : st₁.login_response = none ∨ login_generation = st₁.login_generation :=
      Or.inr hgen
    have h₂ : authenticated_request st₁ login₂ request_factory login_generation =
        ⟨.ok (request_factory (some l₂), st₁.login_generation + 1),
          ⟨some l₂, st₁.login_generation + 1⟩, true⟩ := by
      rw [hl₂]
      exact auth_request_pos l₂ request_factory hcond
    simp only [send_authenticated_request, h₁, he, if_pos hee, h₂]
    simp

theorem C2_send_authenticated_request_retry_witness :
    (send_authenticated_request (ApiState.init Nat) (.ok 5) (.ok 6)
        (fun o : Option Nat => o.getD 0) true (fun _ => .error .unauthorized)
        true (fun _ : Nat => (.ok 99 : Except PErr Nat))).loginInvocations = 2
    ∧ (send_authenticated_request (ApiState.init Nat) (.ok 5) (.ok 6)
        (fun o : Option Nat => o.getD 0) true (fun _ => .error .unauthorized)
        true (fun _ : Nat => (.ok 99 : Except PErr Nat))).sendAttempts = 2 :=
  (C2_send_authenticated_request_retry (ApiState.init Nat) (.ok 5) (.ok 6)
      (fun o => o.getD 0) true (fun _ => .error .unauthorized)
      true (fun _ => .ok 99) 5 1 ⟨some 5, 1⟩ true rfl).2.2.2
    PErr.unauthorized 6 rfl (Or.inl rfl) rfl

/-- C3: `_get` raises `RecentDataMissing` exactly when the adapter finds
no cache entry, whatever the soft/hard limits; on a found entry it
raises `RecentDataStale` exactly when the age in blocks strictly exceeds
the hard limit, and otherwise returns the cached payload unchanged
together with the non-fatal soft-limit warning flag, set exactly when
the age strictly exceeds the soft limit. -/
theorem C3_provider_get_errors {T : Type} (soft_limit hard_limit : Int) (store : Store)
    (A : RecentCacheAdapter T) (netuid : Nat) (now : Rat) :
    (RecentDataProvider_get soft_limit hard_limit store A netuid now = .error .missing
      ↔ A.get store netuid = .absent)
    ∧ (∀ ce, A.get store netuid = .found ce →
        ((RecentDataProvider_get soft_limit hard_limit store A netuid now = .error .stale
            ↔ (elapsed_blocks now ce.timestamp : Int) > hard_limit)
         ∧ ((elapsed_blocks now ce.timestamp : Int) ≤ hard_limit →
            RecentDataProvider_get soft_limit hard_limit store A netuid now =
              .ok (ce.entry,
                decide ((elapsed_blocks now ce.timestamp : Int) > soft_limit))))) := by
  constructor
  · unfold RecentDataProvider_get
    rcases hA : A.get store netuid with _ | _ | ce
    · simp
    · simp
    · simp only []
      split_ifs <;> simp
  · intro ce hce
    rw [provider_get_found hce]
    constructor
    · split_ifs with hs <;> simp [hs]
    · intro hle
      rw [if_neg (not_lt.mpr hle)]

theorem C3_provider_get_errors_witness :
    ((RecentDataProvider_get 2 4 (exampleAdapter.save Store.empty 1 1000 exampleNested)
          exampleAdapter 1 (((1000 : Int) : Rat) + 50) = .error .stale
        ↔ (elapsed_blocks (((1000 : Int) : Rat) + 50) 1000 : Int) > 4)
     ∧ ((elapsed_blocks (((1000 : Int) : Rat) + 50) 1000 : Int) ≤ 4 →
        RecentDataProvider_get 2 4 (exampleAdapter.save Store.empty 1 1000 exampleNested)
            exampleAdapter 1 (((1000 : Int) : Rat) + 50) =
          .ok (exampleNested,
            decide ((elapsed_blocks (((1000 : Int) : Rat) + 50) 1000 : Int) > 2)))) :=
  (C3_provider_get_errors 2 4 (exampleAdapter.save Store.empty 1 1000 exampleNested)
      exampleAdapter 1 (((1000 : Int) : Rat) + 50)).2 ⟨exampleNested, 1000⟩ rfl

/-- C4: the age in blocks computed by the Data Provider equals the
spec's formula `floor(max(0, now - entry.timestamp) / block_time)` —
negative ages are clamped to zero and the division is floor division —
the staleness test is strict (an entry whose age equals the hard limit
is still fresh, one block more is stale), and in the spec's scenario
(`soft=2, hard=4, block_time=12s`) an entry aged 50 seconds has age 4
blocks and is returned with the warning flag while an entry aged 61
seconds has age 5 blocks and is stale. -/
theorem C4_elapsed_blocks_numeric :
    (∀ (now : Rat) (cached_at : Int),
      elapsed_blocks now cached_at = elapsed_blocks_spec now cached_at)
    ∧ (∀ {T : Type} (store : Store) (A : RecentCacheAdapter T) (netuid : Nat)
        (ce : RecentCacheEntry T) (soft_limit hard_limit : Int) (now : Rat),
        A.get store netuid = .found ce →
        (((elapsed_blocks now ce.timestamp : Int) = hard_limit →
          RecentDataProvider_get soft_limit hard_limit store A netuid now =
            .ok (ce.entry, decide (hard_limit > soft_limit)))
         ∧ ((elapsed_blocks now ce.timestamp : Int) = hard_limit + 1 →
          RecentDataProvider_get soft_limit hard_limit store A netuid now = .error .stale)))
    ∧ (∀ t : Int, elapsed_blocks ((t : Rat) + 50) t = 4 ∧ elapsed_blocks ((t : Rat) + 61) t = 5)
    ∧ (∀ {T : Type} (store : Store) (A : RecentCacheAdapter T) (netuid : Nat)
        (ce : RecentCacheEntry T),
        A.get store netuid = .found ce →
        RecentDataProvider_get 2 4 store A netuid ((ce.timestamp : Rat) + 50) =
            .ok (ce.entry, true)
        ∧ RecentDataProvider_get 2 4 store A netuid ((ce.timestamp : Rat) + 61) =
            .error .stale) := by
  have hscen : ∀ t : Int,
      elapsed_blocks ((t : Rat) + 50) t = 4 ∧ elapsed_blocks ((t : Rat) + 61) t = 5 := by
    intro t
    have h50 : (t : Rat) + 50 - (t : Rat) = 50 := by ring
    have h61 : (t : Rat) + 61 - (t : Rat) = 61 := by ring
    unfold elapsed_blocks
    rw [h50, h61]
    constructor <;> rfl
  refine ⟨elapsed_blocks_eq_spec, ?_, hscen, ?_⟩
  · intro T store A netuid ce soft_limit hard_limit now hce
    constructor
    · intro heq
      rw [provider_get_found hce, heq, if_neg (lt_irrefl hard_limit)]
    · intro heq
      rw [provider_get_found hce, heq, if_pos (by omega)]
  · intro T store A netuid ce hce
    obtain ⟨h50, h61⟩ := hscen ce.timestamp
    constructor
    · rw [provider_get_found hce, h50]
      norm_num
    · rw [provider_get_found hce, h61]
      norm_num

theorem C4_elapsed_blocks_numeric_witness :
    RecentDataProvider_get 2 4 (exampleAdapter.save Store.empty 1 1000 exampleNested)
        exampleAdapter 1 (((1000 : Int) : Rat) + 50) = .ok (exampleNested, true)
    ∧ RecentDataProvider_get 2 4 (exampleAdapter.save Store.empty 1 1000 exampleNested)
        exampleAdapter 1 (((1000 : Int) : Rat) + 61) = .error .stale :=
  C4_elapsed_blocks_numeric.2.2.2 (exampleAdapter.save Store.empty 1 1000 exampleNested)
    exampleAdapter 1 ⟨exampleNested, 1000⟩ rfl

/-- C5: saving a payload under a partition and reading the same
partition back through an adapter bound to the same type and store
returns a cache entry with exactly the saved payload and timestamp,
provided the bound model's (external, pydantic) codec is faithful —
witnessed below on a concrete nested payload. -/
theorem C5_save_get_roundtrip {T : Type} (A : RecentCacheAdapter T)
    (hcodec : ∀ x, A.decT (A.encT x) = some x)
    (store : Store) (netuid : Nat) (timestamp : Int) (x : T) :
    A.get (A.save store netuid timestamp x) netuid = .found ⟨x, timestamp⟩ := by
  unfold RecentCacheAdapter.get RecentCacheAdapter.save Store.get Store.set
  simp [decEntry, encEntry, hcodec]

theorem C5_save_get_roundtrip_witness :
    exampleAdapter.get (exampleAdapter.save Store.empty 3 123456789 exampleNested) 3 =
      .found ⟨exampleNested, 123456789⟩ :=
  C5_save_get_roundtrip exampleAdapter decNested_encNested Store.empty 3 123456789
    exampleNested

/-- C7: in a refresh tick, for each tracked partition, a failure of the
latest-block fetch, of the timestamp fetch, or of the payload fetch
leaves the store untouched with no save call (and the task returns
normally — being a total function, no exception escapes); only when all
three fetches succeed is the adapter's save performed, exactly once,
with exactly the fetched timestamp and payload; and a failed partition
does not prevent the rest of the tick from running unchanged. -/
theorem C7_refresh_failure_containment {T Block : Type} (fetch : UpstreamFetch T Block)
    (A : RecentCacheAdapter T) (store : Store) (netuid : Nat) :
    (∀ e, fetch.get_latest_block = .error e →
      UpdateRecentObject_execute fetch A store netuid = (store, []))
    ∧ (∀ block e, fetch.get_latest_block = .ok block →
        fetch.get_block_timestamp block = .error e →
        UpdateRecentObject_execute fetch A store netuid = (store, []))
    ∧ (∀ block timestamp e, fetch.get_latest_block = .ok block →
        fetch.get_block_timestamp block = .ok timestamp →
        fetch.get_object block = .error e →
        UpdateRecentObject_execute fetch A store netuid = (store, []))
    ∧ (∀ block timestamp object_, fetch.get_latest_block = .ok block →
        fetch.get_block_timestamp block = .ok timestamp →
        fetch.get_object block = .ok object_ →
        UpdateRecentObject_execute fetch A store netuid =
          (A.save store netuid timestamp object_, [(netuid, timestamp, object_)]))
    ∧ (∀ (rest : List Nat) (fetches : Nat → UpstreamFetch T Block) e,
        (fetches netuid).get_latest_block = .error e →
        refresh_tick (netuid :: rest) fetches A store = refresh_tick rest fetches A store) := by
  refine ⟨?_, ?_, ?_, ?_, ?_⟩
  · intro e h
    simp only [UpdateRecentObject_execute, h]
  · intro block e h ht
    simp only [UpdateRecentObject_execute, h, ht]
  · intro block timestamp e h ht ho
    simp only [UpdateRecentObject_execute, h, ht, ho]
  · intro block timestamp object_ h ht ho
    simp only [UpdateRecentObject_execute, h, ht, ho]
  · intro rest fetches e h
    have hexec : UpdateRecentObject_execute (fetches netuid) A store netuid = (store, []) := by
      simp only [UpdateRecentObject_execute, h]
    have hcons : refresh_tick (netuid :: rest) fetches A store =
        ((refresh_tick rest fetches A
            (UpdateRecentObject_execute (fetches netuid) A store netuid).1).1,
          (UpdateRecentObject_execute (fetches netuid) A store netuid).2 ++
            (refresh_tick rest fetches A
              (UpdateRecentObject_execute (fetches netuid) A store netuid).1).2) := rfl
    rw [hcons, hexec]
    simp

theorem C7_refresh_failure_containment_witness :
    UpdateRecentObject_execute
        (⟨.error (.err 0), fun _ => .ok 0, fun _ => .ok exampleNested⟩ :
          UpstreamFetch NestedModel Nat)
        exampleAdapter Store.empty 1 = (Store.empty, []) :=
  (C7_refresh_failure_containment
      (⟨.error (.err 0), fun _ => .ok 0, fun _ => .ok exampleNested⟩ :
        UpstreamFetch NestedModel Nat)
      exampleAdapter Store.empty 1).1 (.err 0) rfl

/-- C8: the refresh task's interval in seconds equals
`max(min(hard_limit // 2, soft_limit) - 10, 1) * block_time` for every
configured pair of (non-negative) limits. -/
theorem C8_refresh_interval_formula (soft_limit hard_limit : Nat) :
    recent_objects_update_task_interval soft_limit hard_limit =
      (recent_objects_update_task_interval_spec soft_limit hard_limit : Int) := by
  simp only [recent_objects_update_task_interval, recent_objects_update_task_interval_spec,
    BLOCK_PROCESSING_TIME]
  rw [Int.fdiv_eq_ediv _ (by norm_num)]
  omega

theorem C8_refresh_interval_formula_witness :
    recent_objects_update_task_interval 2 4 =
      ((recent_objects_update_task_interval_spec 2 4 : Nat) : Int) :=
  C8_refresh_interval_formula 2 4

/-- C9: the cache key builder is a deterministic function of the model's
name and the partition identifier, and it is injective over all
(model-name, netuid) pairs — in particular over those actually used —
because the decimal netuid suffix contains no underscore and the key's
last underscore thus separates the two components unambiguously. -/
theorem C9_build_cache_key_injective :
    (∀ {T : Type} (A : RecentCacheAdapter T) (netuid : Nat),
        A.build_cache_key netuid = A.build_cache_key netuid)
    ∧ (∀ {T₁ T₂ : Type} (A₁ : RecentCacheAdapter T₁) (A₂ : RecentCacheAdapter T₂)
        (n₁ n₂ : Nat),
        A₁.build_cache_key n₁ = A₂.build_cache_key n₂ →
        A₁.model_name = A₂.model_name ∧ n₁ = n₂) := by
  refine ⟨fun A netuid => rfl, fun A₁ A₂ n₁ n₂ h => ?_⟩
  unfold RecentCacheAdapter.build_cache_key at h
  exact build_key_components_inj h

theorem C9_build_cache_key_injective_witness :
    exampleAdapter.model_name = exampleAdapter.model_name ∧ 5 = 5 :=
  C9_build_cache_key_injective.2 exampleAdapter exampleAdapter 5 5 rfl

end Pylon
